import Mathlib

/-!
Shallow embedding of the SystemPromptDiagnoser backend core
(session store, trait inference, variant-generation fan-out,
diagnosis phase controller) together with theorems settling the
specification claims about it.

Python dictionaries are modelled as association lists with unique keys
and Python dict-update semantics (replace in place, else append).
`datetime` values are modelled as natural-number timestamps in seconds;
`datetime.now()` becomes an explicit `now` argument.
-/

namespace SPD

/-- Optional-field view of the stored initial-answers dictionary
(the `initial` dict consumed by `LLMServiceV2.generate_final_output_mock`):
`none` models an absent key, mirroring `dict.get` returning `None`. -/
structure InitialDict where
  purpose : Option String
  autonomy : Option String
  learning_scenario : Option String
  confusion_scenario : Option String
  info_load_scenario : Option String
  format_scenario : Option String
  frustration_scenario : Option (List String)
  ideal_interaction : Option String
deriving DecidableEq, Repr

/-- Heterogeneous values stored in a session payload
(`SessionData.data : dict[str, Any]` in `session_service.py`).
The v2 endpoints store integers (`followup_count`, initial `phase`),
strings (`phase`, `detected_language`, `analysis_notes`),
lists of question-id/answer pairs (`followup_answers`)
and the initial-answers dictionary (`initial_answers`). -/
inductive Val where
  | vNat : Nat → Val
  | vStr : String → Val
  | vList : List (String × String) → Val
  | vInit : InitialDict → Val
deriving DecidableEq, Repr

/-- Python dict lookup: first binding for key `k` (keys are unique in every
dict the code builds, so first = only). -/
def lookupA {α : Type} (d : List (String × α)) (k : String) : Option α :=
  match d with
  | [] => none
  | (k', v) :: rest => if k' = k then some v else lookupA rest k

/-- Python dict assignment `d[k] = v`: replace in place if the key exists,
otherwise append (insertion order preserved). -/
def insertA {α : Type} (d : List (String × α)) (k : String) (v : α) :
    List (String × α) :=
  match d with
  | [] => [(k, v)]
  | (k', v') :: rest => if k' = k then (k, v) :: rest else (k', v') :: insertA rest k v

/-- Python `d.update(upd)`: shallow merge, assigning each key of `upd` in order. -/
def dictUpdate {α : Type} (d upd : List (String × α)) : List (String × α) :=
  upd.foldl (fun acc kv => insertA acc kv.1 kv.2) d

/-- Python `del d[k]` (for unique-key dicts). -/
def eraseA {α : Type} (d : List (String × α)) (k : String) : List (String × α) :=
  d.filter (fun kv => kv.1 != k)

theorem lookupA_insertA_self {α : Type} (d : List (String × α)) (k : String) (v : α) :
    lookupA (insertA d k v) k = some v := by
  induction d with
  | nil => simp [insertA, lookupA]
  | cons hd tl ih =>
    obtain ⟨k', v'⟩ := hd
    by_cases h : k' = k
    · simp [insertA, h, lookupA]
    · simp [insertA, h, lookupA, ih]

theorem lookupA_insertA_ne {α : Type} (d : List (String × α)) (k k' : String) (v : α)
    (h : k' ≠ k) : lookupA (insertA d k v) k' = lookupA d k' := by
  induction d with
  | nil =>
    have h' : ¬(k = k') := fun hh => h hh.symm
    simp [insertA, lookupA, h']
  | cons hd tl ih =>
    obtain ⟨k₀, v₀⟩ := hd
    by_cases h0 : k₀ = k
    · subst h0
      have h' : ¬(k₀ = k') := fun hh => h hh.symm
      simp [insertA, lookupA, h']
    · simp [insertA, h0, lookupA, ih]

theorem lookupA_eq_none_of_not_mem {α : Type} (d : List (String × α)) (k : String)
    (h : k ∉ d.map Prod.fst) : lookupA d k = none := by
  induction d with
  | nil => rfl
  | cons hd tl ih =>
    obtain ⟨k₀, v₀⟩ := hd
    simp only [List.map_cons, List.mem_cons] at h
    push_neg at h
    have h' : ¬(k₀ = k) := fun hh => h.1 hh.symm
    simp [lookupA, h', ih h.2]

theorem lookupA_dictUpdate_of_not_mem {α : Type} (d upd : List (String × α))
    (k : String) (h : lookupA upd k = none) :
    lookupA (dictUpdate d upd) k = lookupA d k := by
  induction upd generalizing d with
  | nil => simp [dictUpdate]
  | cons hd tl ih =>
    obtain ⟨k₀, v₀⟩ := hd
    by_cases h0 : k₀ = k
    · simp [lookupA, h0] at h
    · simp only [lookupA, h0, if_neg h0] at h
      have := ih (insertA d k₀ v₀) h
      simpa [dictUpdate, lookupA_insertA_ne d k₀ k v₀ (fun hh => h0 hh.symm)]
        using this

theorem lookupA_dictUpdate_of_mem {α : Type} (d upd : List (String × α))
    (k : String) (v : α) (hnd : (upd.map Prod.fst).Nodup)
    (h : lookupA upd k = some v) :
    lookupA (dictUpdate d upd) k = some v := by
  induction upd generalizing d with
  | nil => simp [lookupA] at h
  | cons hd tl ih =>
    obtain ⟨k₀, v₀⟩ := hd
    simp only [List.map_cons, List.nodup_cons] at hnd
    by_cases h0 : k₀ = k
    · subst h0
      have hv : v₀ = v := by simpa [lookupA] using h
      subst hv
      have hnone : lookupA tl k₀ = none := lookupA_eq_none_of_not_mem tl k₀ hnd.1
      have := lookupA_dictUpdate_of_not_mem (insertA d k₀ v₀) tl k₀ hnone
      simpa [dictUpdate, lookupA_insertA_self] using this
    · have h' : lookupA tl k = some v := by simpa [lookupA, h0] using h
      have := ih (insertA d k₀ v₀) hnd.2 h'
      simpa [dictUpdate] using this

/-- Session record (`SessionData` in `session_service.py`), timestamps as
natural-number seconds. -/
structure SessionData where
  session_id : String
  created_at : Nat
  updated_at : Nat
  expires_at : Nat
  data : List (String × Val)
deriving DecidableEq, Repr

/-- Errors raised by the session service. -/
inductive SessionError where
  | notFound
  | expired
deriving DecidableEq, Repr

/-- Python `SessionData.is_expired`: `datetime.now() > self.expires_at`,
with the current time passed explicitly. -/
def is_expired (now : Nat) (s : SessionData) : Bool :=
  s.expires_at < now

/-- Python `SessionService.create_session` with the fresh uuid passed in
(uuid generation is the one nondeterministic input) and the expiry offset
`timedelta(minutes=default_expiry_minutes)` in seconds. -/
def create_session (store : List (String × SessionData)) (expiryMinutes : Nat)
    (freshId : String) (now : Nat) : List (String × SessionData) :=
  insertA store freshId
    { session_id := freshId
      created_at := now
      updated_at := now
      expires_at := now + expiryMinutes * 60
      data := [] }

/-- Python `SessionService.get_session`: unknown id raises
`SessionNotFoundError`; an expired stored session is evicted and raises
`SessionExpiredError`; otherwise the session is returned and the store is
untouched.  The second component is the store after the call. -/
def get_session (store : List (String × SessionData)) (sid : String) (now : Nat) :
    Except SessionError SessionData × List (String × SessionData) :=
  match lookupA store sid with
  | none => (Except.error SessionError.notFound, store)
  | some s =>
    if is_expired now s then (Except.error SessionError.expired, eraseA store sid)
    else (Except.ok s, store)

/-- Python `SessionService.update_session`: raises `SessionNotFoundError`
only when the id is absent from the store; otherwise shallow-merges the
payload (`session.data.update(data)`) and refreshes `updated_at`.
Note that, unlike `get_session`, it performs no expiry check. -/
def update_session (store : List (String × SessionData)) (sid : String)
    (upd : List (String × Val)) (now : Nat) :
    Except SessionError (List (String × SessionData)) :=
  match lookupA store sid with
  | none => Except.error SessionError.notFound
  | some s =>
    Except.ok (insertA store sid
      { s with data := dictUpdate s.data upd, updated_at := now })

/-- C4: for every session id, `get_session` raises `NotFound` if the id is
not in the store; if the id is stored and the current time is strictly past
the session's `expires_at`, it raises `Expired` and evicts the entry as a
side effect; otherwise (current time at or before `expires_at`, boundary
inclusive on the live side) it returns the session and leaves the store
unchanged. -/
theorem C4_get_session_contract :
    ∀ (store : List (String × SessionData)) (sid : String) (now : Nat),
      (lookupA store sid = none →
        get_session store sid now = (Except.error SessionError.notFound, store)) ∧
      (∀ s : SessionData, lookupA store sid = some s → s.expires_at < now →
        get_session store sid now =
          (Except.error SessionError.expired, eraseA store sid)) ∧
      (∀ s : SessionData, lookupA store sid = some s → now ≤ s.expires_at →
        get_session store sid now = (Except.ok s, store)) := by
  intro store sid now
  refine ⟨fun h => ?_, fun s h hlt => ?_, fun s h hle => ?_⟩
  · simp [get_session, h]
  · simp [get_session, h, is_expired, hlt]
  · simp [get_session, h, is_expired, Nat.not_lt.mpr hle]

/-- Witness for C4 at a concrete store with one session expiring at 100. -/
theorem C4_get_session_contract_witness :
    get_session [("a", ⟨"a", 0, 0, 100, []⟩)] "b" 50 =
      (Except.error SessionError.notFound, [("a", ⟨"a", 0, 0, 100, []⟩)]) ∧
    get_session [("a", ⟨"a", 0, 0, 100, []⟩)] "a" 101 =
      (Except.error SessionError.expired, eraseA [("a", ⟨"a", 0, 0, 100, []⟩)] "a") ∧
    get_session [("a", ⟨"a", 0, 0, 100, []⟩)] "a" 100 =
      (Except.ok ⟨"a", 0, 0, 100, []⟩, [("a", ⟨"a", 0, 0, 100, []⟩)]) :=
  ⟨(C4_get_session_contract [("a", ⟨"a", 0, 0, 100, []⟩)] "b" 50).1 (by decide),
   (C4_get_session_contract [("a", ⟨"a", 0, 0, 100, []⟩)] "a" 101).2.1
     ⟨"a", 0, 0, 100, []⟩ (by decide) (by decide),
   (C4_get_session_contract [("a", ⟨"a", 0, 0, 100, []⟩)] "a" 100).2.2
     ⟨"a", 0, 0, 100, []⟩ (by decide) (by decide)⟩

/-- C5 counterexample: a session stored with `expires_at = 10` is expired at
time 20, yet `update_session` succeeds and silently merges the payload
instead of failing with a NotFound-class error, because `update_session`
checks only membership, never expiry. -/
theorem C5_counterexample :
    is_expired 20 ⟨"s1", 0, 0, 10, [("k0", Val.vStr "a")]⟩ = true ∧
    update_session [("s1", ⟨"s1", 0, 0, 10, [("k0", Val.vStr "a")]⟩)] "s1"
        [("k1", Val.vStr "b")] 20 =
      Except.ok [("s1", ⟨"s1", 0, 20, 10,
        [("k0", Val.vStr "a"), ("k1", Val.vStr "b")]⟩)] := by
  constructor
  · decide
  · rfl

/-- C5 amended: for every stored session that is expired (current time
strictly past `expires_at`) but not yet evicted, `update_session` does not
fail: it silently merges the partial payload into the expired session's
data and refreshes `updated_at`, leaving `expires_at` unchanged.  A
NotFound error is raised only when the id is absent from the store. -/
theorem C5_update_session_expired_merges :
    ∀ (store : List (String × SessionData)) (sid : String)
      (upd : List (String × Val)) (now : Nat) (s : SessionData),
      lookupA store sid = some s → s.expires_at < now →
      ∃ store', update_session store sid upd now = Except.ok store' ∧
        ∃ s', lookupA store' sid = some s' ∧
          s'.updated_at = now ∧ s'.expires_at = s.expires_at ∧
          s'.data = dictUpdate s.data upd := by
  intro store sid upd now s h _
  refine ⟨insertA store sid
    { s with data := dictUpdate s.data upd, updated_at := now }, ?_, ?_⟩
  · simp [update_session, h]
  · exact ⟨_, lookupA_insertA_self store sid _, rfl, rfl, rfl⟩

/-- Witness for C5 amended, at the store of the counterexample. -/
theorem C5_update_session_expired_merges_witness :
    ∃ store', update_session [("s1", ⟨"s1", 0, 0, 10, [("k0", Val.vStr "a")]⟩)]
        "s1" [("k1", Val.vStr "b")] 20 = Except.ok store' ∧
      ∃ s', lookupA store' "s1" = some s' ∧
        s'.updated_at = 20 ∧
        s'.expires_at = (⟨"s1", 0, 0, 10, [("k0", Val.vStr "a")]⟩ :
          SessionData).expires_at ∧
        s'.data = dictUpdate [("k0", Val.vStr "a")] [("k1", Val.vStr "b")] :=
  C5_update_session_expired_merges
    [("s1", ⟨"s1", 0, 0, 10, [("k0", Val.vStr "a")]⟩)] "s1"
    [("k1", Val.vStr "b")] 20 ⟨"s1", 0, 0, 10, [("k0", Val.vStr "a")]⟩
    (by decide) (by decide)

/-- C9: for every stored live session and every partial payload (with
distinct keys, as every dict literal has), `update_session` shallow-merges
the payload into the existing data without dropping any previously stored
key that the payload does not mention, overwrites the keys it does
mention, refreshes `updated_at`, and leaves `session_id`, `created_at` and
`expires_at` unchanged. -/
theorem C9_update_session_merge_frame :
    ∀ (store : List (String × SessionData)) (sid : String)
      (upd : List (String × Val)) (now : Nat) (s : SessionData),
      lookupA store sid = some s → now ≤ s.expires_at →
      (upd.map Prod.fst).Nodup →
      ∃ store', update_session store sid upd now = Except.ok store' ∧
        ∃ s', lookupA store' sid = some s' ∧
          s'.session_id = s.session_id ∧ s'.created_at = s.created_at ∧
          s'.expires_at = s.expires_at ∧ s'.updated_at = now ∧
          (∀ k, lookupA upd k = none → lookupA s'.data k = lookupA s.data k) ∧
          (∀ k v, lookupA upd k = some v → lookupA s'.data k = some v) := by
  intro store sid upd now s h _ hnd
  refine ⟨insertA store sid
    { s with data := dictUpdate s.data upd, updated_at := now }, ?_, ?_⟩
  · simp [update_session, h]
  · refine ⟨_, lookupA_insertA_self store sid _, rfl, rfl, rfl, rfl, ?_, ?_⟩
    · intro k hk
      exact lookupA_dictUpdate_of_not_mem s.data upd k hk
    · intro k v hk
      exact lookupA_dictUpdate_of_mem s.data upd k v hnd hk

/-- Witness for C9: the concrete scenario `create_session()` followed by
`update(id, phase := 1)` and `update(id, notes := "x")`; the second update
keeps the phase key and adds the notes key (merge, not replace). -/
theorem C9_update_session_merge_frame_witness :
    update_session (create_session [] 60 "s1" 0) "s1" [("phase", Val.vNat 1)] 1 =
      Except.ok [("s1", ⟨"s1", 0, 1, 3600, [("phase", Val.vNat 1)]⟩)] ∧
    (∃ store', update_session [("s1", ⟨"s1", 0, 1, 3600, [("phase", Val.vNat 1)]⟩)]
        "s1" [("notes", Val.vStr "x")] 2 = Except.ok store' ∧
      ∃ s', lookupA store' "s1" = some s' ∧
        s'.session_id = "s1" ∧ s'.created_at = 0 ∧
        s'.expires_at = 3600 ∧ s'.updated_at = 2 ∧
        (∀ k, lookupA [("notes", Val.vStr "x")] k = none →
          lookupA s'.data k = lookupA [("phase", Val.vNat 1)] k) ∧
        (∀ k v, lookupA [("notes", Val.vStr "x")] k = some v →
          lookupA s'.data k = some v)) ∧
    dictUpdate [("phase", Val.vNat 1)] [("notes", Val.vStr "x")] =
      [("phase", Val.vNat 1), ("notes", Val.vStr "x")] := by
  refine ⟨rfl, ?_, rfl⟩
  exact C9_update_session_merge_frame
    [("s1", ⟨"s1", 0, 1, 3600, [("phase", Val.vNat 1)]⟩)] "s1"
    [("notes", Val.vStr "x")] 2 ⟨"s1", 0, 1, 3600, [("phase", Val.vNat 1)]⟩
    (by decide) (by decide) (by decide)

/-! Variant-generation fan-out (`workflows/diagnoser.py` and
`prompts/templates.py`).  Each per-style LLM call is modelled by its
outcome, `Except.ok text` for a successful generation and
`Except.error ()` for any raised exception or timeout; the `_use_llm`
instance flag is threaded explicitly through the per-style steps. -/

/-- Input state for the diagnosis workflow (`DiagnoseInput`). -/
structure DiagnoseInput where
  strictness : String
  response_length : String
  tone : String
  use_case : String
  additional_notes : Option String
deriving DecidableEq, Repr

/-- A generated prompt variant (`PromptVariant`). -/
structure PromptVariant where
  style : String
  name : String
  prompt : String
  description : String
deriving DecidableEq, Repr

/-- Entry of `PROMPT_TEMPLATES` in `prompts/templates.py`. -/
structure PromptTemplate where
  style : String
  name : String
  name_ja : String
  description : String
  description_ja : String
  generation_instruction : String
deriving DecidableEq, Repr

/-- The `PROMPT_TEMPLATES` dict of `prompts/templates.py`. -/
def PROMPT_TEMPLATES : String → Option PromptTemplate
  | "short" => some
    { style := "short"
      name := "Short"
      name_ja := "ショート (Short)"
      description := "Minimal prompt with essential guidance only. Best for quick interactions."
      description_ja := "シンプルで要点を押さえたプロンプト。素早いやり取りに最適。"
      generation_instruction := "Generate a SHORT system prompt (2-3 sentences maximum).\nFocus only on the most essential characteristics:\n- Define the AI\x27s primary role in one sentence\n- Add one key behavioral guideline\nKeep it minimal and impactful." }
  | "standard" => some
    { style := "standard"
      name := "Standard"
      name_ja := "スタンダード (Standard)"
      description := "Balanced prompt with clear guidelines. Recommended for everyday use."
      description_ja := "バランスの取れた汎用的なプロンプト。日常的な使用に推奨。"
      generation_instruction := "Generate a STANDARD system prompt (4-6 bullet points or numbered items).\nInclude a balanced coverage of:\n- Role definition\n- Communication style\n- Key behavioral guidelines\n- Response approach\nFormat with clear sections or numbered list." }
  | "strict" => some
    { style := "strict"
      name := "Strict"
      name_ja := "ストリクト (Strict)"
      description := "Comprehensive prompt with detailed rules. Best for professional or specialized tasks."
      description_ja := "詳細な指示を含む厳格なプロンプト。専門的な作業に最適。"
      generation_instruction := "Generate a STRICT, comprehensive system prompt (8-12 points).\nCover all aspects thoroughly:\n- Core identity and role\n- Communication principles\n- Behavioral rules\n- Response formatting guidelines\n- Handling uncertainty and edge cases\n- Prohibited behaviors\nUse clear sections with headers." }
  | _ => none

/-- Entry of `USE_CASE_CONTEXTS`. -/
structure UseCaseContext where
  context : String
  additional_guidance : List String
deriving DecidableEq, Repr

/-- The `USE_CASE_CONTEXTS` dict. -/
def USE_CASE_CONTEXTS : String → Option UseCaseContext
  | "coding" => some
    { context := "software development and programming"
      additional_guidance :=
        ["Provide code examples when helpful",
         "Explain technical concepts clearly",
         "Follow best practices and conventions",
         "Consider security and performance"] }
  | "writing" => some
    { context := "content creation and writing assistance"
      additional_guidance :=
        ["Focus on clarity and engagement",
         "Match the requested style and tone",
         "Offer constructive suggestions",
         "Maintain consistent voice"] }
  | "research" => some
    { context := "research and information synthesis"
      additional_guidance :=
        ["Cite sources when possible",
         "Distinguish facts from interpretations",
         "Present multiple perspectives",
         "Acknowledge limitations in knowledge"] }
  | "general" => some
    { context := "general-purpose assistance"
      additional_guidance :=
        ["Be versatile and adaptive",
         "Ask clarifying questions when needed",
         "Provide balanced, helpful responses",
         "Match the user\x27s communication style"] }
  | _ => none

/-- Entry of `TONE_MODIFIERS` and `STRICTNESS_BEHAVIORS`. -/
structure GuidelineEntry where
  description : String
  guidelines : List String
deriving DecidableEq, Repr

/-- The `TONE_MODIFIERS` dict. -/
def TONE_MODIFIERS : String → Option GuidelineEntry
  | "formal" => some
    { description := "professional and business-appropriate"
      guidelines :=
        ["Use formal language and structure",
         "Avoid colloquialisms and casual expressions",
         "Maintain a respectful, professional tone"] }
  | "casual" => some
    { description := "friendly and conversational"
      guidelines :=
        ["Use a warm, approachable tone",
         "Feel free to use contractions and casual language",
         "Be personable while staying helpful"] }
  | "technical" => some
    { description := "precise with technical terminology"
      guidelines :=
        ["Use accurate technical terminology",
         "Be precise and detailed in explanations",
         "Assume familiarity with domain concepts"] }
  | _ => none

/-- The `STRICTNESS_BEHAVIORS` dict. -/
def STRICTNESS_BEHAVIORS : String → Option GuidelineEntry
  | "flexible" => some
    { description := "adaptable and open to different approaches"
      guidelines :=
        ["Be willing to explore alternatives",
         "Adapt to user preferences",
         "Offer multiple options when appropriate"] }
  | "strict" => some
    { description := "rule-following and focused on accuracy"
      guidelines :=
        ["Prioritize accuracy over creativity",
         "Follow established conventions",
         "Verify information before providing"] }
  | "creative" => some
    { description := "innovative and exploratory"
      guidelines :=
        ["Offer creative and unconventional ideas",
         "Think outside the box",
         "Encourage experimentation"] }
  | _ => none

/-- Python `get_use_case_context`: falls back to the `general` entry. -/
def get_use_case_context (use_case : String) : UseCaseContext :=
  (USE_CASE_CONTEXTS use_case).getD ((USE_CASE_CONTEXTS "general").getD
    { context := "", additional_guidance := [] })

/-- Python `get_tone_modifier`: falls back to the `formal` entry. -/
def get_tone_modifier (tone : String) : GuidelineEntry :=
  (TONE_MODIFIERS tone).getD ((TONE_MODIFIERS "formal").getD
    { description := "", guidelines := [] })

/-- Python `get_strictness_behavior`: falls back to the `flexible` entry. -/
def get_strictness_behavior (strictness : String) : GuidelineEntry :=
  (STRICTNESS_BEHAVIORS strictness).getD ((STRICTNESS_BEHAVIORS "flexible").getD
    { description := "", guidelines := [] })

/-- Python `DiagnoserWorkflow._generate_fallback_prompt`: the local,
deterministic, total template-based generator used when the per-style LLM
call fails.  List indexing `guidelines[i]` is modelled with `getD i ""`;
every registered guideline list has at least 3 elements, so the default is
never reached at the indices the code uses. -/
def generate_fallback_prompt (input : DiagnoseInput) (style : String) : String :=
  let ucc := get_use_case_context input.use_case
  let tm := get_tone_modifier input.tone
  let sb := get_strictness_behavior input.strictness
  let context := ucc.context
  let tone_desc := tm.description
  let behavior := sb.description
  if style = "short" then
    "You are a " ++ behavior ++ " AI assistant for " ++ context ++ ". Be " ++
      tone_desc ++ " and direct."
  else if style = "standard" then
    "You are an AI assistant specialized in " ++ context ++
      ".\n\nCommunication Style: " ++ tone_desc ++ "\n\nGuidelines:\n1. Be " ++
      behavior ++ " in your approach.\n2. " ++
      ucc.additional_guidance.getD 0 "" ++ "\n3. " ++
      tm.guidelines.getD 0 "" ++ "\n4. Ask clarifying questions when needed."
  else
    "You are an expert AI assistant designed for " ++ context ++
      ".\n\nCore Principles:\n1. Maintain a " ++ behavior ++
      " approach at all times.\n2. Communication style: " ++ tone_desc ++
      ".\n3. " ++ tm.guidelines.getD 0 "" ++ "\n4. " ++
      tm.guidelines.getD 1 "" ++ "\n\nDomain Guidelines:\n5. " ++
      ucc.additional_guidance.getD 0 "" ++ "\n6. " ++
      ucc.additional_guidance.getD 1 "" ++ "\n7. " ++
      ucc.additional_guidance.getD 2 "" ++ "\n\nBehavioral Rules:\n8. " ++
      sb.guidelines.getD 0 "" ++ "\n9. " ++ sb.guidelines.getD 1 "" ++
      "\n10. Do not provide information outside your knowledge domain.\n11. Request clarification for ambiguous queries.\n12. Structure responses clearly when appropriate."

/-- Python `DiagnoserWorkflow._generate_prompt_variant`: looks up the style
template (`none` models the KeyError a missing template would raise), then
either takes the successful LLM output or catches the exception, clears
the shared `_use_llm` flag and substitutes the fallback prompt.  The flag
is threaded through as the second component. -/
def generate_prompt_variant (input : DiagnoseInput) (style : String)
    (outcome : Except Unit String) (useLlm : Bool) :
    Option (PromptVariant × Bool) :=
  match PROMPT_TEMPLATES style with
  | none => none
  | some t =>
    match outcome with
    | Except.ok prompt =>
      some ({ style := style, name := t.name_ja, prompt := prompt,
              description := t.description_ja }, useLlm)
    | Except.error _ =>
      some ({ style := style, name := t.name_ja,
              prompt := generate_fallback_prompt input style,
              description := t.description_ja }, false)

/-- Python `DiagnoserWorkflow._determine_recommendation`. -/
def determine_recommendation (input : DiagnoseInput) : String :=
  if input.response_length = "short" then "short"
  else if input.strictness = "strict" ∨ input.response_length = "detailed" then
    "strict"
  else "standard"

/-- Result dict of `DiagnoserWorkflow.run`. -/
structure WorkflowResult where
  recommended_style : String
  variants : List PromptVariant
  source : String
deriving DecidableEq, Repr

/-- The fixed style list of `DiagnoserWorkflow.run`. -/
def diagnoserStyles : List String := ["short", "standard", "strict"]

/-- Python `DiagnoserWorkflow.run`: fans out one generation per style
(`outcomes` assigns each style its call outcome), assembles the variants
in the fixed style order, and tags the result `"llm"` unless some style
cleared the `_use_llm` flag, in which case it tags `"mock"`.  The `none`
result models an uncaught exception escaping `run`. -/
def run_workflow (input : DiagnoseInput)
    (outcomes : String → Except Unit String) : Option WorkflowResult :=
  let step : Option (List PromptVariant × Bool) → String →
      Option (List PromptVariant × Bool) := fun acc st =>
    match acc with
    | none => none
    | some (vs, flag) =>
      match generate_prompt_variant input st (outcomes st) flag with
      | none => none
      | some (v, flag') => some (vs ++ [v], flag')
  match diagnoserStyles.foldl step (some ([], true)) with
  | none => none
  | some (variants, useLlm) =>
    some { recommended_style := determine_recommendation input
           variants := variants
           source := if useLlm then "llm" else "mock" }

/-- Proof-layer abbreviation for the variant that one fan-out branch of
`DiagnoserWorkflow.run` produces from the outcome of its LLM call. -/
def fanout_variant (input : DiagnoseInput) (st nameJa descJa : String) :
    Except Unit String → PromptVariant
  | Except.ok p => ⟨st, nameJa, p, descJa⟩
  | Except.error _ => ⟨st, nameJa, generate_fallback_prompt input st, descJa⟩

theorem fanout_variant_style (input : DiagnoseInput) (st nameJa descJa : String)
    (o : Except Unit String) : (fanout_variant input st nameJa descJa o).style = st := by
  cases o <;> rfl

theorem fanout_variant_prompt_ok (input : DiagnoseInput)
    (st nameJa descJa : String) (o : Except Unit String) (p : String)
    (h : o = Except.ok p) :
    (fanout_variant input st nameJa descJa o).prompt = p := by
  subst h; rfl

theorem fanout_variant_prompt_error (input : DiagnoseInput)
    (st nameJa descJa : String) (o : Except Unit String) (e : Unit)
    (h : o = Except.error e) :
    (fanout_variant input st nameJa descJa o).prompt =
      generate_fallback_prompt input st := by
  subst h; rfl

theorem run_workflow_eq (input : DiagnoseInput)
    (outcomes : String → Except Unit String) :
    run_workflow input outcomes = some
      { recommended_style := determine_recommendation input
        variants :=
          [fanout_variant input "short" "ショート (Short)"
             "シンプルで要点を押さえたプロンプト。素早いやり取りに最適。" (outcomes "short"),
           fanout_variant input "standard" "スタンダード (Standard)"
             "バランスの取れた汎用的なプロンプト。日常的な使用に推奨。" (outcomes "standard"),
           fanout_variant input "strict" "ストリクト (Strict)"
             "詳細な指示を含む厳格なプロンプト。専門的な作業に最適。" (outcomes "strict")]
        source :=
          if (outcomes "short").isOk && (outcomes "standard").isOk &&
              (outcomes "strict").isOk then "llm" else "mock" } := by
  cases h1 : outcomes "short" <;> cases h2 : outcomes "standard" <;>
    cases h3 : outcomes "strict" <;>
  simp [run_workflow, diagnoserStyles, generate_prompt_variant,
    PROMPT_TEMPLATES, fanout_variant, Except.isOk, Except.toBool, h1, h2, h3]

/-- C1: for every input and every combination of per-style generation
outcomes, `run` returns exactly 3 PromptVariants, one per style in
short/standard/strict in that order; a style whose generation call raises
gets the local deterministic fallback prompt and no failure escapes `run`;
the source tag is `"mock"` iff at least one style required the fallback
path and `"llm"` otherwise. -/
theorem C1_run_workflow_fanout :
    ∀ (input : DiagnoseInput) (outcomes : String → Except Unit String),
      ∃ r : WorkflowResult, run_workflow input outcomes = some r ∧
        r.variants.map PromptVariant.style = ["short", "standard", "strict"] ∧
        (∀ v ∈ r.variants,
          (∀ p, outcomes v.style = Except.ok p → v.prompt = p) ∧
          (∀ e, outcomes v.style = Except.error e →
            v.prompt = generate_fallback_prompt input v.style)) ∧
        (r.source = "mock" ↔
          ¬((outcomes "short").isOk ∧ (outcomes "standard").isOk ∧
            (outcomes "strict").isOk)) ∧
        (r.source = "llm" ↔
          ((outcomes "short").isOk ∧ (outcomes "standard").isOk ∧
            (outcomes "strict").isOk)) := by
  intro input outcomes
  refine ⟨_, run_workflow_eq input outcomes, ?_, ?_, ?_, ?_⟩
  · simp [fanout_variant_style]
  · intro v hv
    simp only [List.mem_cons, List.not_mem_nil, or_false] at hv
    rcases hv with rfl | rfl | rfl
    · simp only [fanout_variant_style]
      exact ⟨fanout_variant_prompt_ok input "short" _ _ (outcomes "short"),
        fanout_variant_prompt_error input "short" _ _ (outcomes "short")⟩
    · simp only [fanout_variant_style]
      exact ⟨fanout_variant_prompt_ok input "standard" _ _ (outcomes "standard"),
        fanout_variant_prompt_error input "standard" _ _ (outcomes "standard")⟩
    · simp only [fanout_variant_style]
      exact ⟨fanout_variant_prompt_ok input "strict" _ _ (outcomes "strict"),
        fanout_variant_prompt_error input "strict" _ _ (outcomes "strict")⟩
  · cases hb1 : (outcomes "short").isOk <;>
      cases hb2 : (outcomes "standard").isOk <;>
      cases hb3 : (outcomes "strict").isOk <;>
      simp [hb1, hb2, hb3]
  · cases hb1 : (outcomes "short").isOk <;>
      cases hb2 : (outcomes "standard").isOk <;>
      cases hb3 : (outcomes "strict").isOk <;>
      simp [hb1, hb2, hb3]

/-- Witness for C1 at a concrete input where the standard style raises. -/
theorem C1_run_workflow_fanout_witness :
    ∃ r : WorkflowResult,
      run_workflow ⟨"strict", "standard", "formal", "coding", none⟩
        (fun st => if st = "standard" then Except.error () else Except.ok "ok text") =
        some r ∧
      r.variants.map PromptVariant.style = ["short", "standard", "strict"] ∧
      r.source = "mock" := by
  obtain ⟨r, hr, hmap, _, hmock, _⟩ := C1_run_workflow_fanout
    ⟨"strict", "standard", "formal", "coding", none⟩
    (fun st => if st = "standard" then Except.error () else Except.ok "ok text")
  exact ⟨r, hr, hmap, hmock.mpr (by decide)⟩

/-! Trait inference and deterministic mock final-output generation
(`services/llm_service_v2.py`).  Optional dictionary entries are
`Option String`; the Python truthiness guard `if value:` is false for
both a missing key and an empty string. -/

/-- The autonomy-seeded base profile record used by
`_build_cognitive_profile`. -/
structure BaseProfile where
  thinking_pattern : String
  learning_type : String
  detail_orientation : String
  preferred_structure : String
  use_tables : Bool
deriving DecidableEq, Repr

/-- The `base_profiles` dict with its `.get(autonomy, base_profiles["collaborative"])`
lookup: unknown autonomy values fall back to the collaborative entry. -/
def base_profiles : String → BaseProfile
  | "obedient" => ⟨"structural", "visual_text", "high", "hierarchical", true⟩
  | "autonomous" => ⟨"fluid", "kinesthetic", "low", "flat", false⟩
  | _ => ⟨"hybrid", "visual_text", "medium", "contextual", true⟩

/-- The `thinking_map` dict with its `.get(key, default)` lookup. -/
def thinking_map (k dflt : String) : String :=
  if k = "overview" then "structural"
  else if k = "tutorial" then "structural"
  else if k = "example" then "fluid"
  else if k = "question" then "fluid"
  else dflt

/-- The `learning_map` dict with its `.get(key, default)` lookup. -/
def learning_map (k dflt : String) : String :=
  if k = "reread" then "visual_text"
  else if k = "example" then "kinesthetic"
  else if k = "simplify" then "visual_text"
  else if k = "ask" then "auditory"
  else dflt

/-- The `detail_map` dict with its `.get(key, default)` lookup. -/
def detail_map (k dflt : String) : String :=
  if k = "comfortable" then "high"
  else if k = "skim" then "medium"
  else if k = "overwhelmed" then "low"
  else if k = "summary" then "medium"
  else dflt

/-- The `structure_map` dict with its `.get(key, default)` lookup. -/
def structure_map (k dflt : String) : String :=
  if k = "structured" then "hierarchical"
  else if k = "conversational" then "contextual"
  else if k = "code_first" then "flat"
  else if k = "table" then "hierarchical"
  else dflt

/-- The `learning_scenario` step of `_build_cognitive_profile`: overrides
`thinking_pattern` when the field is present and non-empty. -/
def apply_learning_scenario (ls : Option String) (b : BaseProfile) : BaseProfile :=
  match ls with
  | none => b
  | some s =>
    if s = "" then b
    else { b with thinking_pattern := thinking_map s b.thinking_pattern }

/-- The `confusion_scenario` step: overrides `learning_type`. -/
def apply_confusion_scenario (cs : Option String) (b : BaseProfile) : BaseProfile :=
  match cs with
  | none => b
  | some s =>
    if s = "" then b
    else { b with learning_type := learning_map s b.learning_type }

/-- The `info_load_scenario` step: overrides `detail_orientation`. -/
def apply_info_load_scenario (il : Option String) (b : BaseProfile) : BaseProfile :=
  match il with
  | none => b
  | some s =>
    if s = "" then b
    else { b with detail_orientation := detail_map s b.detail_orientation }

/-- The `format_scenario` step: overrides `preferred_structure` and
`use_tables` (`format_scenario in ["structured", "table"]`). -/
def apply_format_scenario (fs : Option String) (b : BaseProfile) : BaseProfile :=
  match fs with
  | none => b
  | some s =>
    if s = "" then b
    else { b with preferred_structure := structure_map s b.preferred_structure,
                  use_tables := (s == "structured" || s == "table") }

/-- The `patterns_ja` dict of `_build_avoid_patterns`. -/
def patterns_ja : String → Option String
  | "too_casual" => some "カジュアルすぎる口調"
  | "too_long" => some "長すぎる回答"
  | "too_abstract" => some "抽象的すぎる説明"
  | "too_detailed" => some "細かすぎる説明"
  | "uncertain" => some "曖昧な「〜かもしれません」表現"
  | "emoji" => some "絵文字や過度な装飾"
  | _ => none

/-- The `patterns_en` dict of `_build_avoid_patterns`. -/
def patterns_en : String → Option String
  | "too_casual" => some "overly casual tone"
  | "too_long" => some "excessively long responses"
  | "too_abstract" => some "overly abstract explanations"
  | "too_detailed" => some "overly detailed explanations"
  | "uncertain" => some "uncertain \x27might be\x27 expressions"
  | "emoji" => some "emojis and excessive decorations"
  | _ => none

/-- Python `LLMServiceV2._build_avoid_patterns`: empty input yields `[]`;
otherwise the comprehension `[patterns[f] for f in frustration if f in patterns]`
keeps only the recognised triggers, silently dropping unknown values. -/
def build_avoid_patterns (frustration : List String) (detected_language : String) :
    List String :=
  if frustration.isEmpty then []
  else frustration.filterMap
    (fun f => if detected_language = "ja" then patterns_ja f else patterns_en f)

/-- The Japanese rows of the `defaults` dict in `_get_default_avoid_patterns`. -/
def default_avoid_ja : String → List String
  | "obedient" => ["曖昧な表現", "過度な装飾", "推測的な回答"]
  | "autonomous" => ["過度な説明", "細かすぎる指示", "冗長な表現"]
  | _ => ["過度な専門用語", "長すぎる説明"]

/-- The English rows of the `defaults` dict in `_get_default_avoid_patterns`. -/
def default_avoid_en : String → List String
  | "obedient" => ["vague expressions", "excessive decorations", "speculative answers"]
  | "autonomous" =>
    ["excessive explanations", "overly detailed instructions", "verbose expressions"]
  | _ => ["excessive jargon", "overly long explanations"]

/-- Python `LLMServiceV2._get_default_avoid_patterns`:
`defaults.get(autonomy, defaults["collaborative"]).get(lang, defaults["collaborative"]["en"])`,
so an unknown autonomy falls back to the collaborative row, and an unknown
language falls back to the collaborative English list. -/
def get_default_avoid_patterns (autonomy detected_language : String) : List String :=
  if detected_language = "ja" then default_avoid_ja autonomy
  else if detected_language = "en" then default_avoid_en autonomy
  else default_avoid_en "collaborative"

/-- The `thinking_desc` rows of `_generate_persona_summary` (Japanese). -/
def thinking_desc_ja : String → Option String
  | "structural" => some "全体構造を先に把握してから詳細に進む構造型思考"
  | "fluid" => some "具体例から始めて抽象化する流動型思考"
  | "hybrid" => some "状況に応じて構造的/流動的アプローチを使い分ける混合型思考"
  | _ => none

/-- The `thinking_desc` rows of `_generate_persona_summary` (English). -/
def thinking_desc_en : String → Option String
  | "structural" => some "structural thinking that grasps the overall structure first"
  | "fluid" => some "fluid thinking that starts from examples and abstracts"
  | "hybrid" => some "hybrid thinking that adapts approach to the situation"
  | _ => none

/-- The `detail_desc` rows (Japanese). -/
def detail_desc_ja : String → Option String
  | "high" => some "詳細な説明を好む"
  | "medium" => some "バランスの取れた情報量を好む"
  | "low" => some "要点を素早く把握したい"
  | _ => none

/-- The `detail_desc` rows (English). -/
def detail_desc_en : String → Option String
  | "high" => some "prefers detailed explanations"
  | "medium" => some "prefers balanced information"
  | "low" => some "wants to quickly grasp key points"
  | _ => none

/-- The `interaction_desc` rows (Japanese). -/
def interaction_desc_ja : String → Option String
  | "mentor" => some "専門的なアドバイスを求める"
  | "colleague" => some "対等な議論を好む"
  | "assistant" => some "的確な指示への対応を求める"
  | "teacher" => some "丁寧な説明を求める"
  | _ => none

/-- The `interaction_desc` rows (English). -/
def interaction_desc_en : String → Option String
  | "mentor" => some "seeks expert advice"
  | "colleague" => some "prefers equal discussion"
  | "assistant" => some "expects prompt response to instructions"
  | "teacher" => some "seeks patient explanations"
  | _ => none

/-- Python `LLMServiceV2._generate_persona_summary`: canned fragments for
thinking pattern and detail orientation (with hybrid/medium defaults),
plus the ideal-interaction fragment when present and recognised, joined
according to the normalised language (anything outside ja/en becomes en). -/
def generate_persona_summary (profile : BaseProfile) (ideal : Option String)
    (detected_language : String) : String :=
  let lang := if detected_language = "ja" ∨ detected_language = "en" then
    detected_language else "en"
  let thinkingDesc := fun k =>
    if lang = "ja" then thinking_desc_ja k else thinking_desc_en k
  let detailDesc := fun k =>
    if lang = "ja" then detail_desc_ja k else detail_desc_en k
  let interactionDesc := fun k =>
    if lang = "ja" then interaction_desc_ja k else interaction_desc_en k
  let part0 := (thinkingDesc profile.thinking_pattern).getD
    ((thinkingDesc "hybrid").getD "")
  let part1 := (detailDesc profile.detail_orientation).getD
    ((detailDesc "medium").getD "")
  let part2 : Option String :=
    match ideal with
    | none => none
    | some s => if s = "" then none else interactionDesc s
  if lang = "ja" then
    "私は" ++ part0 ++ "の学習者です。" ++ part1 ++ "タイプで、" ++
      (match part2 with
       | some p2 => p2 ++ "傾向があります。"
       | none => "。")
  else
    "I am a learner with " ++ part0 ++ ". I " ++ part1 ++
      (match part2 with
       | some p2 => " and " ++ p2 ++ "."
       | none => ".")

/-- Python `LLMServiceV2._get_formatting_principles_ja`. -/
def get_formatting_principles_ja (thinking detail structurePref learning : String) :
    List String :=
  (if thinking = "structural" then
    ["全体構造（マクロ）から詳細（ミクロ）へ順に説明", "階層構造・関係性・位置づけを明確にする"]
   else if thinking = "fluid" then
    ["文脈と流れを重視し、自然な説明順序で展開", "具体例から一般化へ帰納的に説明"]
   else ["状況に応じて全体像と具体例を使い分ける"]) ++
  (if detail = "high" then ["網羅的な情報を段階的に提示", "長文では適宜小結論を挟む"]
   else if detail = "low" then ["核心的情報に絞り、簡潔に", "詳細は追加質問を待って展開"]
   else ["バランスの取れた情報量で要点を明確に"]) ++
  (if structurePref = "hierarchical" then ["箇条書き・表・階層構造を活用して整理"]
   else if structurePref = "flat" then ["フラットな箇条書きでシンプルに"]
   else ["文脈に応じた柔軟な構造で"]) ++
  (if learning = "kinesthetic" then ["実践的な例やハンズオンを優先"]
   else if learning = "visual_diagram" then ["図表やフローで視覚的に表現"]
   else [])

/-- Python `LLMServiceV2._get_formatting_principles_en`. -/
def get_formatting_principles_en (thinking detail structurePref learning : String) :
    List String :=
  (if thinking = "structural" then
    ["Explain from overall structure (macro) to details (micro)",
     "Clarify hierarchies, relationships, and positioning"]
   else if thinking = "fluid" then
    ["Prioritize context and flow with natural explanation order",
     "Explain inductively from examples to generalizations"]
   else ["Flexibly use both overview and concrete examples"]) ++
  (if detail = "high" then
    ["Present comprehensive information progressively",
     "Include interim conclusions in long responses"]
   else if detail = "low" then
    ["Focus on core information, keep it concise", "Expand details only when asked"]
   else ["Provide balanced information with clear key points"]) ++
  (if structurePref = "hierarchical" then
    ["Use bullet points, tables, and hierarchical structures"]
   else if structurePref = "flat" then ["Use flat bullet points for simplicity"]
   else ["Adapt structure flexibly to context"]) ++
  (if learning = "kinesthetic" then
    ["Prioritize practical examples and hands-on content"]
   else if learning = "visual_diagram" then
    ["Express visually with diagrams and flowcharts"]
   else [])

/-- Python `LLMServiceV2._get_formatting_principles`: at its only call site
the profile dict always carries the four keys, so the `.get` defaults are
never taken and the helper is applied directly to the four trait values. -/
def get_formatting_principles (thinking detail structurePref learning
    detected_language : String) : List String :=
  if detected_language = "ja" then
    get_formatting_principles_ja thinking detail structurePref learning
  else get_formatting_principles_en thinking detail structurePref learning

/-- Cognitive-profile dict produced by `_build_cognitive_profile`. -/
structure CognitiveProfile where
  thinking_pattern : String
  learning_type : String
  detail_orientation : String
  preferred_structure : String
  use_tables : Bool
  formatting_principles : List String
  avoid_patterns : List String
  persona_summary : String
deriving DecidableEq, Repr

/-- Python `LLMServiceV2._build_cognitive_profile`: seeds a base profile
from autonomy, applies the four optional-scenario overrides in order,
derives avoid patterns (falling back to the autonomy defaults when the
trigger translation is empty), then the persona summary and the
formatting principles. -/
def build_cognitive_profile (initial : InitialDict) (autonomy : String)
    (detected_language : String) : CognitiveProfile :=
  let base0 := base_profiles autonomy
  let base1 := apply_learning_scenario initial.learning_scenario base0
  let base2 := apply_confusion_scenario initial.confusion_scenario base1
  let base3 := apply_info_load_scenario initial.info_load_scenario base2
  let base := apply_format_scenario initial.format_scenario base3
  let frustration := initial.frustration_scenario.getD []
  let avoid0 := build_avoid_patterns frustration detected_language
  let avoid := if avoid0.isEmpty then
    get_default_avoid_patterns autonomy detected_language else avoid0
  let persona := generate_persona_summary base initial.ideal_interaction
    detected_language
  let principles := get_formatting_principles base.thinking_pattern
    base.detail_orientation base.preferred_structure base.learning_type
    detected_language
  { thinking_pattern := base.thinking_pattern
    learning_type := base.learning_type
    detail_orientation := base.detail_orientation
    preferred_structure := base.preferred_structure
    use_tables := base.use_tables
    formatting_principles := principles
    avoid_patterns := avoid
    persona_summary := persona }

/-- Python `LLMServiceV2._determine_recommended_style` (the autonomy
argument is accepted but unused, as in the source). -/
def determine_recommended_style (cp : CognitiveProfile) (autonomy : String) :
    String :=
  if cp.detail_orientation = "high" then "strict"
  else if cp.detail_orientation = "low" then "short"
  else "standard"

/-- Python `LLMServiceV2._get_tone_guidance_ja` with its collaborative default. -/
def get_tone_guidance_ja : String → String
  | "obedient" => "指示に忠実で的確なアシスタントとして対応。専門的かつ丁寧に。"
  | "autonomous" => "専門家として自律的に判断し、積極的に提案。簡潔で効率的なやり取りを。"
  | _ => "対等なパートナーとして一緒に考える姿勢。提案や代替案を積極的に。"

/-- Python `LLMServiceV2._get_tone_guidance_en` with its collaborative default. -/
def get_tone_guidance_en : String → String
  | "obedient" => "Respond as a precise and reliable assistant. Professional and thorough."
  | "autonomous" => "Make autonomous decisions as an expert. Keep interactions concise and efficient."
  | _ => "Act as an equal partner, thinking together. Actively offer suggestions and alternatives."

/-- The `user_profile` dict of a generated final output. -/
structure UserProfileOut where
  primary_use_case : String
  autonomy_preference : String
  communication_style : String
  key_traits : List String
  detected_needs : List String
  cognitive_profile : Option CognitiveProfile
deriving DecidableEq, Repr

/-- The final-output dict of `generate_final_output` /
`generate_final_output_mock`. -/
structure FinalOutput where
  user_profile : UserProfileOut
  recommended_style : String
  recommendation_reason : String
  variants : List PromptVariant
deriving DecidableEq, Repr

/-- Python `LLMServiceV2._generate_mock_ja`. -/
def generate_mock_ja (purpose autonomy recommended_style : String)
    (cognitive_profile : CognitiveProfile) : FinalOutput :=
  let persona := cognitive_profile.persona_summary
  let avoid := String.intercalate "、" cognitive_profile.avoid_patterns
  let principles := cognitive_profile.formatting_principles
  let principles_short :=
    String.intercalate "\n" ((principles.take 3).map (fun p => "- " ++ p))
  let principles_standard :=
    String.intercalate "\n" ((principles.take 5).map (fun p => "- " ++ p))
  let principles_full :=
    String.intercalate "\n" (principles.map (fun p => "- " ++ p))
  let tone := get_tone_guidance_ja autonomy
  let short_prompt :=
    persona ++ "\n\n## 回答の原則\n" ++ principles_short ++ "\n- " ++ avoid ++ "は避ける"
  let standard_prompt :=
    persona ++ "\n以下の原則で" ++ purpose ++ "をサポートしてください。\n\n## 回答の原則\n" ++
      principles_standard ++ "\n\n## トーン\n" ++ tone ++ "\n\n## 回避事項\n" ++
      avoid ++ "は避けてください。"
  let strict_prompt :=
    persona ++ "\n\n## 回答の原則\n" ++ principles_full ++
      "\n\n## 認知特性\n- 思考パターン: " ++ cognitive_profile.thinking_pattern ++
      "型\n- 学習タイプ: " ++ cognitive_profile.learning_type ++
      "\n- 詳細志向度: " ++ cognitive_profile.detail_orientation ++
      "\n- 情報構造: " ++ cognitive_profile.preferred_structure ++
      "構造を好む\n\n## トーン・インタラクション\n" ++ tone ++
      "\n\n## 回答形式の指針\n- 冒頭で結論・要点を述べる\n- 根拠・詳細を段階的に展開\n- 具体例は実践的なものを選ぶ\n- コードを含む場合は適宜コメントを付与\n\n## 回避すべきパターン\n以下は私の認知特性に合わないため、避けてください：\n- " ++
      avoid ++
      "\n\n## 品質基準\n- 正確性: 不確実な情報には明示的に注記\n- 構造化: 視覚的に読み取りやすいフォーマット\n- 実践性: すぐに適用可能な具体例"
  { user_profile :=
      { primary_use_case := purpose.take 50
        autonomy_preference := autonomy
        communication_style := "技術的・構造的"
        key_traits := ["構造思考", "効率重視", "詳細志向"]
        detected_needs := [purpose, "構造化された情報"]
        cognitive_profile := some cognitive_profile }
    recommended_style := recommended_style
    recommendation_reason :=
      "あなたの認知特性（" ++ cognitive_profile.thinking_pattern ++ "型思考）に基づいて推奨しています"
    variants :=
      [⟨"short", "ショート (Short)", short_prompt,
        "ペルソナ宣言と核心的な原則のみを含む簡潔なプロンプト"⟩,
       ⟨"standard", "スタンダード (Standard)", standard_prompt,
        "認知特性に基づく原則とトーン指針を含むバランスの取れたプロンプト"⟩,
       ⟨"strict", "ストリクト (Strict)", strict_prompt,
        "完全な認知プロファイルと詳細な原則・品質基準を含むプロンプト"⟩] }

/-- Python `LLMServiceV2._generate_mock_en`. -/
def generate_mock_en (purpose autonomy recommended_style : String)
    (cognitive_profile : CognitiveProfile) : FinalOutput :=
  let persona := cognitive_profile.persona_summary
  let avoid := String.intercalate ", " cognitive_profile.avoid_patterns
  let principles := cognitive_profile.formatting_principles
  let principles_short :=
    String.intercalate "\n" ((principles.take 3).map (fun p => "- " ++ p))
  let principles_standard :=
    String.intercalate "\n" ((principles.take 5).map (fun p => "- " ++ p))
  let principles_full :=
    String.intercalate "\n" (principles.map (fun p => "- " ++ p))
  let tone := get_tone_guidance_en autonomy
  let short_prompt :=
    persona ++ "\n\n## Response Principles\n" ++ principles_short ++
      "\n- Avoid: " ++ avoid
  let standard_prompt :=
    persona ++ "\nPlease support me with " ++ purpose ++
      " following these principles.\n\n## Response Principles\n" ++
      principles_standard ++ "\n\n## Tone\n" ++ tone ++
      "\n\n## Avoid\nPlease avoid: " ++ avoid
  let strict_prompt :=
    persona ++ "\n\n## Response Principles\n" ++ principles_full ++
      "\n\n## Cognitive Traits\n- Thinking pattern: " ++
      cognitive_profile.thinking_pattern ++ " type\n- Learning type: " ++
      cognitive_profile.learning_type ++ "\n- Detail orientation: " ++
      cognitive_profile.detail_orientation ++ "\n- Preferred structure: " ++
      cognitive_profile.preferred_structure ++
      "\n\n## Tone & Interaction\n" ++ tone ++
      "\n\n## Response Guidelines\n- State conclusions and key points at the beginning\n- Expand supporting details progressively\n- Choose practical, applicable examples\n- Include comments when providing code\n\n## Patterns to Avoid\nThe following don\x27t match my cognitive style, please avoid:\n- " ++
      avoid ++
      "\n\n## Quality Standards\n- Accuracy: Explicitly note uncertain information\n- Structure: Visually scannable formatting\n- Practicality: Immediately applicable examples"
  { user_profile :=
      { primary_use_case := purpose.take 50
        autonomy_preference := autonomy
        communication_style := "technical and structured"
        key_traits := ["structured thinking", "efficiency-focused", "detail-oriented"]
        detected_needs := [purpose, "structured information"]
        cognitive_profile := some cognitive_profile }
    recommended_style := recommended_style
    recommendation_reason :=
      "Recommended based on your cognitive traits (" ++
        cognitive_profile.thinking_pattern ++ " thinking pattern)"
    variants :=
      [⟨"short", "Short", short_prompt,
        "Concise prompt with persona and core principles only"⟩,
       ⟨"standard", "Standard", standard_prompt,
        "Balanced prompt with cognitive-based principles and tone guidance"⟩,
       ⟨"strict", "Strict", strict_prompt,
        "Complete prompt with full cognitive profile and detailed principles"⟩] }

/-- The `all_answers` dict assembled by the controller:
`{"initial": ..., "followup": ...}`; `none` models a missing initial dict,
for which `all_answers.get("initial", {})` substitutes the empty dict. -/
structure AllAnswers where
  initial : Option InitialDict
  followup : List (String × String)
deriving DecidableEq, Repr

/-- The empty initial dict (`{}`): every key absent. -/
def emptyInitialDict : InitialDict :=
  ⟨none, none, none, none, none, none, none, none⟩

/-- Python `LLMServiceV2.generate_final_output_mock`: a pure function of
the accumulated answers and the detected language.  Reads `purpose` and
`autonomy` with their documented defaults, builds the cognitive profile,
derives the recommended style and renders the language-specific mock. -/
def generate_final_output_mock (all_answers : AllAnswers)
    (detected_language : String) : FinalOutput :=
  let initial := all_answers.initial.getD emptyInitialDict
  let purpose := initial.purpose.getD "general assistance"
  let autonomy := initial.autonomy.getD "collaborative"
  let cognitive_profile := build_cognitive_profile initial autonomy detected_language
  let recommended_style := determine_recommended_style cognitive_profile autonomy
  if detected_language = "ja" then
    generate_mock_ja purpose autonomy recommended_style cognitive_profile
  else
    generate_mock_en purpose autonomy recommended_style cognitive_profile

theorem apply_learning_scenario_detail (ls : Option String) (b : BaseProfile) :
    (apply_learning_scenario ls b).detail_orientation = b.detail_orientation := by
  cases ls with
  | none => rfl
  | some s =>
    by_cases h : s = "" <;> simp [apply_learning_scenario, h]

theorem apply_confusion_scenario_detail (cs : Option String) (b : BaseProfile) :
    (apply_confusion_scenario cs b).detail_orientation = b.detail_orientation := by
  cases cs with
  | none => rfl
  | some s =>
    by_cases h : s = "" <;> simp [apply_confusion_scenario, h]

theorem apply_format_scenario_detail (fs : Option String) (b : BaseProfile) :
    (apply_format_scenario fs b).detail_orientation = b.detail_orientation := by
  cases fs with
  | none => rfl
  | some s =>
    by_cases h : s = "" <;> simp [apply_format_scenario, h]

theorem apply_info_load_comfortable (b : BaseProfile) :
    (apply_info_load_scenario (some "comfortable") b).detail_orientation =
      "high" := by
  simp [apply_info_load_scenario, detail_map]

theorem build_cognitive_profile_detail_eq (initial : InitialDict)
    (autonomy detected_language : String) :
    (build_cognitive_profile initial autonomy detected_language).detail_orientation =
      (apply_info_load_scenario initial.info_load_scenario
        (apply_confusion_scenario initial.confusion_scenario
          (apply_learning_scenario initial.learning_scenario
            (base_profiles autonomy)))).detail_orientation := by
  simp only [build_cognitive_profile]
  exact apply_format_scenario_detail _ _

/-- C2: the deterministic mock final-output generation is a pure function
of the accumulated answers and the detected language: two invocations at
equal inputs produce identical output, in particular identical
CognitiveProfile fields. -/
theorem C2_generate_final_output_mock_deterministic :
    ∀ (a₁ a₂ : AllAnswers) (l₁ l₂ : String), a₁ = a₂ → l₁ = l₂ →
      generate_final_output_mock a₁ l₁ = generate_final_output_mock a₂ l₂ ∧
      (generate_final_output_mock a₁ l₁).user_profile.cognitive_profile =
        (generate_final_output_mock a₂ l₂).user_profile.cognitive_profile := by
  intro a₁ a₂ l₁ l₂ h₁ h₂
  subst h₁
  subst h₂
  exact ⟨rfl, rfl⟩

/-- Witness for C2 at a concrete answer set, also evaluating the embedded
generator at that input. -/
theorem C2_generate_final_output_mock_deterministic_witness :
    (generate_final_output_mock
        ⟨some ⟨some "code review", some "obedient", none, none, none, none,
          none, none⟩, []⟩ "en" =
      generate_final_output_mock
        ⟨some ⟨some "code review", some "obedient", none, none, none, none,
          none, none⟩, []⟩ "en" ∧
      (generate_final_output_mock
        ⟨some ⟨some "code review", some "obedient", none, none, none, none,
          none, none⟩, []⟩ "en").user_profile.cognitive_profile =
      (generate_final_output_mock
        ⟨some ⟨some "code review", some "obedient", none, none, none, none,
          none, none⟩, []⟩ "en").user_profile.cognitive_profile) ∧
    (generate_final_output_mock
        ⟨some ⟨some "code review", some "obedient", none, none, none, none,
          none, none⟩, []⟩ "en").recommended_style = "strict" :=
  ⟨C2_generate_final_output_mock_deterministic _ _ _ _ rfl rfl, rfl⟩

/-- C7: with no optional signal fields, autonomy obedient seeds a
structural, high-detail, tables-on profile, and autonomy autonomous seeds
a fluid, low-detail, tables-off profile, in every language. -/
theorem C7_autonomy_seed_profiles :
    ∀ (purpose detected_language : String),
      ((build_cognitive_profile
          ⟨some purpose, some "obedient", none, none, none, none, none, none⟩
          "obedient" detected_language).thinking_pattern = "structural" ∧
       (build_cognitive_profile
          ⟨some purpose, some "obedient", none, none, none, none, none, none⟩
          "obedient" detected_language).detail_orientation = "high" ∧
       (build_cognitive_profile
          ⟨some purpose, some "obedient", none, none, none, none, none, none⟩
          "obedient" detected_language).use_tables = true) ∧
      ((build_cognitive_profile
          ⟨some purpose, some "autonomous", none, none, none, none, none, none⟩
          "autonomous" detected_language).thinking_pattern = "fluid" ∧
       (build_cognitive_profile
          ⟨some purpose, some "autonomous", none, none, none, none, none, none⟩
          "autonomous" detected_language).detail_orientation = "low" ∧
       (build_cognitive_profile
          ⟨some purpose, some "autonomous", none, none, none, none, none, none⟩
          "autonomous" detected_language).use_tables = false) := by
  intro purpose detected_language
  exact ⟨⟨rfl, rfl, rfl⟩, ⟨rfl, rfl, rfl⟩⟩

/-- C8: with autonomy autonomous and an explicit
`info_load_scenario = "comfortable"`, the inferred detail orientation is
high: the explicit signal overrides the autonomy-derived default of low,
and the later format step never touches detail orientation again. -/
theorem C8_info_load_overrides_autonomy :
    ∀ (initial : InitialDict) (detected_language : String),
      initial.info_load_scenario = some "comfortable" →
      (base_profiles "autonomous").detail_orientation = "low" ∧
      (build_cognitive_profile initial "autonomous"
        detected_language).detail_orientation = "high" := by
  intro initial detected_language h
  refine ⟨rfl, ?_⟩
  rw [build_cognitive_profile_detail_eq, h, apply_info_load_comfortable]

/-- Witness for C8 at a concrete initial-answers dict. -/
theorem C8_info_load_overrides_autonomy_witness :
    (base_profiles "autonomous").detail_orientation = "low" ∧
    (build_cognitive_profile
      ⟨some "p", some "autonomous", none, none, some "comfortable", none,
        none, none⟩ "autonomous" "en").detail_orientation = "high" :=
  C8_info_load_overrides_autonomy
    ⟨some "p", some "autonomous", none, none, some "comfortable", none,
      none, none⟩ "en" rfl

/-! Request validation for `InitialAnswers` (`schemas/diagnose_v2.py`).
The pydantic model declares `purpose : str` and
`autonomy : Literal["obedient", "collaborative", "autonomous"]` as
required, five optional `Literal[...] | None` fields, and
`frustration_scenario : list[str] | None` — a plain string list with no
enumeration constraint. -/

/-- Raw (pre-validation) request payload: `none` is an absent or null field. -/
structure RawInitialAnswers where
  purpose : Option String
  autonomy : Option String
  learning_scenario : Option String
  confusion_scenario : Option String
  info_load_scenario : Option String
  format_scenario : Option String
  frustration_scenario : Option (List String)
  ideal_interaction : Option String
deriving DecidableEq, Repr

/-- The `autonomy` Literal values. -/
def autonomy_values : List String := ["obedient", "collaborative", "autonomous"]

/-- The `learning_scenario` Literal values. -/
def learning_scenario_values : List String :=
  ["overview", "tutorial", "example", "question"]

/-- The `confusion_scenario` Literal values. -/
def confusion_scenario_values : List String := ["reread", "example", "simplify", "ask"]

/-- The `info_load_scenario` Literal values. -/
def info_load_scenario_values : List String :=
  ["comfortable", "skim", "overwhelmed", "summary"]

/-- The `format_scenario` Literal values. -/
def format_scenario_values : List String :=
  ["structured", "conversational", "code_first", "table"]

/-- The `ideal_interaction` Literal values. -/
def ideal_interaction_values : List String :=
  ["mentor", "colleague", "assistant", "teacher"]

/-- Validation of one optional Literal field: an absent field always
passes; a present value passes iff it is one of the permitted literals. -/
def optional_literal_ok (v : Option String) (allowed : List String) : Bool :=
  match v with
  | none => true
  | some s => decide (s ∈ allowed)

/-- Pydantic validation of `InitialAnswers`: required fields must be
present, `autonomy` and the five optional Literal fields must take
permitted values, while `frustration_scenario` is an unconstrained
`list[str] | None` and is passed through unchecked. -/
def validate_initial_answers (r : RawInitialAnswers) :
    Except String InitialDict :=
  match r.purpose with
  | none => Except.error "purpose: field required"
  | some purpose =>
    match r.autonomy with
    | none => Except.error "autonomy: field required"
    | some autonomy =>
      if autonomy ∈ autonomy_values then
        if optional_literal_ok r.learning_scenario learning_scenario_values then
          if optional_literal_ok r.confusion_scenario confusion_scenario_values then
            if optional_literal_ok r.info_load_scenario info_load_scenario_values then
              if optional_literal_ok r.format_scenario format_scenario_values then
                if optional_literal_ok r.ideal_interaction ideal_interaction_values then
                  Except.ok ⟨some purpose, some autonomy, r.learning_scenario,
                    r.confusion_scenario, r.info_load_scenario,
                    r.format_scenario, r.frustration_scenario,
                    r.ideal_interaction⟩
                else Except.error "ideal_interaction: not a permitted literal"
              else Except.error "format_scenario: not a permitted literal"
            else Except.error "info_load_scenario: not a permitted literal"
          else Except.error "confusion_scenario: not a permitted literal"
        else Except.error "learning_scenario: not a permitted literal"
      else Except.error "autonomy: not a permitted literal"

/-- C6 counterexample: a frustration trigger outside the fixed enumerated
trigger set is accepted by validation rather than rejected, and the
avoid-pattern builder silently drops it. -/
theorem C6_counterexample :
    validate_initial_answers
        ⟨some "p", some "obedient", none, none, none, none,
          some ["not_a_trigger"], none⟩ =
      Except.ok ⟨some "p", some "obedient", none, none, none, none,
        some ["not_a_trigger"], none⟩ ∧
    patterns_ja "not_a_trigger" = none ∧
    patterns_en "not_a_trigger" = none ∧
    build_avoid_patterns ["not_a_trigger"] "en" = [] ∧
    build_avoid_patterns ["not_a_trigger"] "ja" = [] := by
  exact ⟨rfl, rfl, rfl, rfl, rfl⟩

/-- C6 amended: each optional Literal-typed field (learning, confusion,
info-load, format, ideal-interaction scenarios), if present, must be one
of its fixed enumerated values and an out-of-enumeration value is
rejected as a validation error; absence of every optional field never
raises (validation succeeds for any valid required fields, with any
frustration list); but the frustration field is an unconstrained string
list: any list is accepted, and triggers outside the enumerated set are
silently dropped by the avoid-pattern translation instead of being
rejected. -/
theorem C6_optional_field_validation :
    (∀ (r : RawInitialAnswers) (s : String),
      ((r.learning_scenario = some s ∧ s ∉ learning_scenario_values) ∨
       (r.confusion_scenario = some s ∧ s ∉ confusion_scenario_values) ∨
       (r.info_load_scenario = some s ∧ s ∉ info_load_scenario_values) ∨
       (r.format_scenario = some s ∧ s ∉ format_scenario_values) ∨
       (r.ideal_interaction = some s ∧ s ∉ ideal_interaction_values)) →
      ∃ e, validate_initial_answers r = Except.error e) ∧
    (∀ (purpose autonomy : String) (fr : Option (List String)),
      autonomy ∈ autonomy_values →
      validate_initial_answers
          ⟨some purpose, some autonomy, none, none, none, none, fr, none⟩ =
        Except.ok ⟨some purpose, some autonomy, none, none, none, none, fr,
          none⟩) ∧
    (∀ (fr : List String) (detected_language : String),
      (∀ f ∈ fr, patterns_ja f = none ∧ patterns_en f = none) →
      build_avoid_patterns fr detected_language = []) := by
  refine ⟨?_, ?_, ?_⟩
  · intro r s h
    cases hp : r.purpose with
    | none => exact ⟨"purpose: field required", by simp [validate_initial_answers, hp]⟩
    | some p =>
    cases ha : r.autonomy with
    | none => exact ⟨"autonomy: field required", by simp [validate_initial_answers, hp, ha]⟩
    | some a =>
    by_cases h0 : a ∈ autonomy_values
    case neg => exact ⟨"autonomy: not a permitted literal", by simp [validate_initial_answers, hp, ha, h0]⟩
    case pos =>
    by_cases h1 : optional_literal_ok r.learning_scenario
      learning_scenario_values = true
    case neg => exact ⟨"learning_scenario: not a permitted literal", by simp [validate_initial_answers, hp, ha, h0, h1]⟩
    case pos =>
    by_cases h2 : optional_literal_ok r.confusion_scenario
      confusion_scenario_values = true
    case neg => exact ⟨"confusion_scenario: not a permitted literal", by simp [validate_initial_answers, hp, ha, h0, h1, h2]⟩
    case pos =>
    by_cases h3 : optional_literal_ok r.info_load_scenario
      info_load_scenario_values = true
    case neg =>
      exact ⟨"info_load_scenario: not a permitted literal", by simp [validate_initial_answers, hp, ha, h0, h1, h2, h3]⟩
    case pos =>
    by_cases h4 : optional_literal_ok r.format_scenario
      format_scenario_values = true
    case neg =>
      exact ⟨"format_scenario: not a permitted literal", by simp [validate_initial_answers, hp, ha, h0, h1, h2, h3, h4]⟩
    case pos =>
    by_cases h5 : optional_literal_ok r.ideal_interaction
      ideal_interaction_values = true
    case neg =>
      exact ⟨"ideal_interaction: not a permitted literal", by simp [validate_initial_answers, hp, ha, h0, h1, h2, h3, h4, h5]⟩
    case pos =>
    exfalso
    rcases h with ⟨hs, hmem⟩ | ⟨hs, hmem⟩ | ⟨hs, hmem⟩ | ⟨hs, hmem⟩ | ⟨hs, hmem⟩
    · exact hmem (by simpa [optional_literal_ok, hs] using h1)
    · exact hmem (by simpa [optional_literal_ok, hs] using h2)
    · exact hmem (by simpa [optional_literal_ok, hs] using h3)
    · exact hmem (by simpa [optional_literal_ok, hs] using h4)
    · exact hmem (by simpa [optional_literal_ok, hs] using h5)
  · intro purpose autonomy fr h0
    simp [validate_initial_answers, optional_literal_ok, h0]
  · intro fr detected_language h
    by_cases he : fr.isEmpty
    · simp [build_avoid_patterns, he]
    · simp only [build_avoid_patterns, he, if_neg, Bool.false_eq_true,
        if_false]
      rw [List.filterMap_eq_nil_iff]
      intro f hf
      rcases h f hf with ⟨hja, hen⟩
      by_cases hl : detected_language = "ja" <;> simp [hl, hja, hen]

/-- Witness for C6 amended: a concrete out-of-enumeration
`learning_scenario` is rejected; a concrete all-absent-optional request
with an arbitrary frustration list validates; a concrete unknown trigger
list translates to no avoid patterns. -/
theorem C6_optional_field_validation_witness :
    (∃ e, validate_initial_answers
        ⟨some "p", some "obedient", some "bogus", none, none, none, none,
          none⟩ = Except.error e) ∧
    validate_initial_answers
        ⟨some "p", some "obedient", none, none, none, none,
          some ["zzz"], none⟩ =
      Except.ok ⟨some "p", some "obedient", none, none, none, none,
        some ["zzz"], none⟩ ∧
    build_avoid_patterns ["zzz"] "en" = [] :=
  ⟨C6_optional_field_validation.1
      ⟨some "p", some "obedient", some "bogus", none, none, none, none, none⟩
      "bogus" (Or.inl ⟨rfl, by decide⟩),
   C6_optional_field_validation.2.1 "p" "obedient" (some ["zzz"]) (by decide),
   C6_optional_field_validation.2.2 ["zzz"] "en" (by decide)⟩

/-! Diagnosis phase controller: the `/api/v2/diagnose/continue` endpoint
and `_generate_final_result` (`main.py`).  The generative backend is
modelled by its outcome: `some o` is a successful LLM generation already
parsed into a well-formed output dict, `none` covers both an unavailable
key and a raised/timed-out call, for which the handler falls back to the
deterministic mock.  Current time is an explicit argument, fixed for the
duration of one request. -/

/-- Choice entry of the `Question` response model. -/
structure QuestionChoice where
  value : String
  label : String
  description : Option String
deriving DecidableEq, Repr

/-- The `Question` response model (`qtype` embeds the `type` field). -/
structure Question where
  id : String
  question : String
  qtype : String
  placeholder : Option String
  suggestions : Option (List String)
  choices : Option (List QuestionChoice)
deriving DecidableEq, Repr

/-- The `CognitiveProfile` response model of `schemas/diagnose_v2.py`:
it carries `formatting_rules` (a string map) and no
`formatting_principles` field. -/
structure CognitiveProfileResp where
  thinking_pattern : String
  learning_type : String
  detail_orientation : String
  preferred_structure : String
  use_tables : Bool
  formatting_rules : List (String × String)
  avoid_patterns : List String
  persona_summary : String
deriving DecidableEq, Repr

/-- The `UserProfile` response model. -/
structure UserProfileResp where
  primary_use_case : String
  autonomy_preference : String
  communication_style : String
  key_traits : List String
  detected_needs : List String
  cognitive_profile : Option CognitiveProfileResp
deriving DecidableEq, Repr

/-- The `DiagnoseV2Result` response model. -/
structure DiagnoseV2Result where
  user_profile : UserProfileResp
  recommended_style : String
  recommendation_reason : String
  variants : List PromptVariant
  source : String
deriving DecidableEq, Repr

/-- The `DiagnoseV2ContinueRequest` model: session id plus the submitted
(question id, answer) pairs. -/
structure ContinueRequest where
  session_id : String
  answers : List (String × String)
deriving DecidableEq, Repr

/-- The `DiagnoseV2ContinueResponse` model. -/
structure ContinueResponse where
  session_id : String
  phase : String
  followup_questions : Option (List Question)
  result : Option DiagnoseV2Result
deriving DecidableEq, Repr

/-- Conversion of a generated cognitive-profile dict into the
`CognitiveProfile` response model, as done in `_generate_final_result`:
`formatting_rules` comes from `cp.get("formatting_rules", {})` and the
generated dicts carry no such key, `use_tables` from
`cp.get("use_tables", False)`. -/
def to_cognitive_profile_resp (cp : CognitiveProfile) : CognitiveProfileResp :=
  { thinking_pattern := cp.thinking_pattern
    learning_type := cp.learning_type
    detail_orientation := cp.detail_orientation
    preferred_structure := cp.preferred_structure
    use_tables := cp.use_tables
    formatting_rules := []
    avoid_patterns := cp.avoid_patterns
    persona_summary := cp.persona_summary }

/-- Assembly of `DiagnoseV2Result` from a final-output dict and the
provenance tag, as in `_generate_final_result`; a missing or falsy
cognitive profile stays `None`. -/
def mk_diagnose_result (o : FinalOutput) (source : String) : DiagnoseV2Result :=
  { user_profile :=
      { primary_use_case := o.user_profile.primary_use_case
        autonomy_preference := o.user_profile.autonomy_preference
        communication_style := o.user_profile.communication_style
        key_traits := o.user_profile.key_traits
        detected_needs := o.user_profile.detected_needs
        cognitive_profile :=
          o.user_profile.cognitive_profile.map to_cognitive_profile_resp }
    recommended_style := o.recommended_style
    recommendation_reason := o.recommendation_reason
    variants := o.variants
    source := source }

/-- Python `session.data.get("followup_answers", [])`, faithful whenever
the stored value (if any) is a list, which the endpoints guarantee. -/
def get_followup_answers (d : List (String × Val)) : List (String × String) :=
  match lookupA d "followup_answers" with
  | some (Val.vList l) => l
  | _ => []

/-- Python `session.data.get("followup_count", 0)`. -/
def get_followup_count (d : List (String × Val)) : Nat :=
  match lookupA d "followup_count" with
  | some (Val.vNat n) => n
  | _ => 0

/-- Python `session_data.get("initial_answers", {})`. -/
def get_initial_answers (d : List (String × Val)) : InitialDict :=
  match lookupA d "initial_answers" with
  | some (Val.vInit i) => i
  | _ => emptyInitialDict

/-- Python `session_data.get("detected_language", "en")`. -/
def get_detected_language (d : List (String × Val)) : String :=
  match lookupA d "detected_language" with
  | some (Val.vStr s) => s
  | _ => "en"

/-- Scope guard making the payload getters faithful to Python: each of the
four keys the v2 continue path reads is either absent or holds a value of
the expected shape (as every session written by the endpoints does). -/
def followup_keys_well_typed (d : List (String × Val)) : Bool :=
  (match lookupA d "followup_answers" with
   | none => true
   | some (Val.vList _) => true
   | some _ => false) &&
  (match lookupA d "followup_count" with
   | none => true
   | some (Val.vNat _) => true
   | some _ => false) &&
  (match lookupA d "initial_answers" with
   | none => true
   | some (Val.vInit _) => true
   | some _ => false) &&
  (match lookupA d "detected_language" with
   | none => true
   | some (Val.vStr _) => true
   | some _ => false)

/-- Python `_generate_final_result`: re-reads the session, assembles the
accumulated answers, obtains the final output from the LLM (tag `"llm"`)
or, on unavailability or any raised error, from the deterministic mock
(tag `"mock"`), marks the session phase `"complete"`, and returns a
complete-phase response carrying the result and no follow-up questions. -/
def generate_final_result (store : List (String × SessionData)) (sid : String)
    (now : Nat) (llm_outcome : Option FinalOutput) :
    Except SessionError (ContinueResponse × List (String × SessionData)) :=
  match get_session store sid now with
  | (Except.error e, _) => Except.error e
  | (Except.ok session, store1) =>
    let all_answers : AllAnswers :=
      { initial := some (get_initial_answers session.data)
        followup := get_followup_answers session.data }
    let detected_language := get_detected_language session.data
    let outcome :=
      match llm_outcome with
      | some o => (o, "llm")
      | none => (generate_final_output_mock all_answers detected_language, "mock")
    match update_session store1 sid [("phase", Val.vStr "complete")] now with
    | Except.error e => Except.error e
    | Except.ok store2 =>
      Except.ok
        ({ session_id := sid
           phase := "complete"
           followup_questions := none
           result := some (mk_diagnose_result outcome.1 outcome.2) }, store2)

/-- Python `diagnose_v2_continue`: fetches the session (404-class error on
unknown or expired id), appends the submitted answers, increments the
follow-up round counter, stores both, and — on the 2-round cap branch as
well as on the fall-through branch — generates the final result. -/
def diagnose_v2_continue (store : List (String × SessionData))
    (req : ContinueRequest) (now : Nat) (llm_outcome : Option FinalOutput) :
    Except SessionError (ContinueResponse × List (String × SessionData)) :=
  match get_session store req.session_id now with
  | (Except.error e, _) => Except.error e
  | (Except.ok session, store1) =>
    let current := get_followup_answers session.data ++ req.answers
    let cnt := get_followup_count session.data + 1
    match update_session store1 req.session_id
        [("followup_answers", Val.vList current),
         ("followup_count", Val.vNat cnt)] now with
    | Except.error e => Except.error e
    | Except.ok store2 =>
      if cnt ≥ 2 then generate_final_result store2 req.session_id now llm_outcome
      else generate_final_result store2 req.session_id now llm_outcome

theorem get_session_live (store : List (String × SessionData)) (sid : String)
    (now : Nat) (s : SessionData) (hs : lookupA store sid = some s)
    (hlive : now ≤ s.expires_at) :
    get_session store sid now = (Except.ok s, store) := by
  simp [get_session, hs, is_expired, Nat.not_lt.mpr hlive]

theorem update_session_found (store : List (String × SessionData)) (sid : String)
    (upd : List (String × Val)) (now : Nat) (s : SessionData)
    (hs : lookupA store sid = some s) :
    update_session store sid upd now = Except.ok (insertA store sid
      { s with data := dictUpdate s.data upd, updated_at := now }) := by
  simp [update_session, hs]

theorem generate_final_result_live (store : List (String × SessionData))
    (sid : String) (now : Nat) (g : Option FinalOutput) (s : SessionData)
    (hs : lookupA store sid = some s) (hlive : now ≤ s.expires_at) :
    generate_final_result store sid now g =
      Except.ok
        ({ session_id := sid
           phase := "complete"
           followup_questions := none
           result := some (match g with
             | some o => mk_diagnose_result o "llm"
             | none => mk_diagnose_result
                 (generate_final_output_mock
                   ⟨some (get_initial_answers s.data), get_followup_answers s.data⟩
                   (get_detected_language s.data)) "mock") },
         insertA store sid
           { s with data := dictUpdate s.data [("phase", Val.vStr "complete")],
                    updated_at := now }) := by
  cases g with
  | none =>
    simp [generate_final_result, get_session_live store sid now s hs hlive,
      update_session_found store sid _ now s hs]
  | some o =>
    simp [generate_final_result, get_session_live store sid now s hs hlive,
      update_session_found store sid _ now s hs]

/-- The session record stored by the answer-merging step of
`diagnose_v2_continue`. -/
def continued_session (s : SessionData) (answers : List (String × String))
    (now : Nat) : SessionData :=
  { s with
    data := dictUpdate s.data
        [("followup_answers", Val.vList (get_followup_answers s.data ++ answers)),
         ("followup_count", Val.vNat (get_followup_count s.data + 1))]
    updated_at := now }

/-- The session record stored by the phase-completing step of
`_generate_final_result`. -/
def completed_session (s : SessionData) (now : Nat) : SessionData :=
  { s with
    data := dictUpdate s.data [("phase", Val.vStr "complete")]
    updated_at := now }

theorem completed_continued_data_eq (s : SessionData)
    (answers : List (String × String)) (now : Nat) :
    (completed_session (continued_session s answers now) now).data =
      insertA (insertA (insertA s.data "followup_answers"
          (Val.vList (get_followup_answers s.data ++ answers)))
        "followup_count" (Val.vNat (get_followup_count s.data + 1)))
        "phase" (Val.vStr "complete") := rfl

/-- Core behaviour of one continue request on a live session: it always
succeeds and returns a complete-phase response with a result and no
follow-up questions, storing a session whose phase is `"complete"`, whose
expiry is unchanged, and whose payload keeps the shape the endpoints
maintain. -/
theorem diagnose_v2_continue_completes (store : List (String × SessionData))
    (req : ContinueRequest) (now : Nat) (g : Option FinalOutput)
    (s : SessionData) (hs : lookupA store req.session_id = some s)
    (hlive : now ≤ s.expires_at) :
    ∃ resp store' s',
      diagnose_v2_continue store req now g = Except.ok (resp, store') ∧
      resp.session_id = req.session_id ∧
      resp.phase = "complete" ∧
      resp.followup_questions = none ∧
      resp.result.isSome = true ∧
      lookupA store' req.session_id = some s' ∧
      s'.expires_at = s.expires_at ∧
      lookupA s'.data "phase" = some (Val.vStr "complete") ∧
      (∃ l, lookupA s'.data "followup_answers" = some (Val.vList l)) ∧
      (∃ n, lookupA s'.data "followup_count" = some (Val.vNat n)) ∧
      lookupA s'.data "initial_answers" = lookupA s.data "initial_answers" ∧
      lookupA s'.data "detected_language" = lookupA s.data "detected_language" := by
  have hupd1 : update_session store req.session_id
      [("followup_answers", Val.vList (get_followup_answers s.data ++ req.answers)),
       ("followup_count", Val.vNat (get_followup_count s.data + 1))] now =
      Except.ok (insertA store req.session_id
        (continued_session s req.answers now)) :=
    update_session_found store req.session_id _ now s hs
  have hs1 : lookupA (insertA store req.session_id
      (continued_session s req.answers now)) req.session_id =
      some (continued_session s req.answers now) := lookupA_insertA_self _ _ _
  have hlive1 : now ≤ (continued_session s req.answers now).expires_at := hlive
  have hfin := generate_final_result_live
    (insertA store req.session_id (continued_session s req.answers now))
    req.session_id now g _ hs1 hlive1
  have hrun : diagnose_v2_continue store req now g =
      generate_final_result
        (insertA store req.session_id (continued_session s req.answers now))
        req.session_id now g := by
    simp only [diagnose_v2_continue,
      get_session_live store req.session_id now s hs hlive, hupd1, ite_self]
  refine ⟨_, _, completed_session (continued_session s req.answers now) now,
    hrun.trans hfin, rfl, rfl, rfl, ?_, ?_, rfl, ?_, ?_, ?_, ?_, ?_⟩
  · cases g <;> rfl
  · exact lookupA_insertA_self _ _ _
  · rw [show (completed_session (continued_session s req.answers now) now).data =
        insertA (continued_session s req.answers now).data "phase"
          (Val.vStr "complete") from rfl]
    exact lookupA_insertA_self _ _ _
  · refine ⟨get_followup_answers s.data ++ req.answers, ?_⟩
    rw [completed_continued_data_eq,
      lookupA_insertA_ne _ _ _ _ (by decide),
      lookupA_insertA_ne _ _ _ _ (by decide)]
    exact lookupA_insertA_self _ _ _
  · refine ⟨get_followup_count s.data + 1, ?_⟩
    rw [completed_continued_data_eq,
      lookupA_insertA_ne _ _ _ _ (by decide)]
    exact lookupA_insertA_self _ _ _
  · rw [completed_continued_data_eq,
      lookupA_insertA_ne _ _ _ _ (by decide),
      lookupA_insertA_ne _ _ _ _ (by decide),
      lookupA_insertA_ne _ _ _ _ (by decide)]
  · rw [completed_continued_data_eq,
      lookupA_insertA_ne _ _ _ _ (by decide),
      lookupA_insertA_ne _ _ _ _ (by decide),
      lookupA_insertA_ne _ _ _ _ (by decide)]

/-- C10: one continue request on a live session already returns phase
complete with a final result and no further follow-up questions,
regardless of the stored followup count and of the submitted answers:
both branches of the round-cap check generate the final result. -/
theorem C10_continue_first_submission_completes :
    ∀ (store : List (String × SessionData)) (req : ContinueRequest)
      (now : Nat) (g : Option FinalOutput) (s : SessionData),
      lookupA store req.session_id = some s →
      now ≤ s.expires_at →
      followup_keys_well_typed s.data = true →
      ∃ resp store', diagnose_v2_continue store req now g =
          Except.ok (resp, store') ∧
        resp.phase = "complete" ∧
        resp.followup_questions = none ∧
        resp.result.isSome = true ∧
        ∃ s', lookupA store' req.session_id = some s' ∧
          lookupA s'.data "phase" = some (Val.vStr "complete") := by
  intro store req now g s hs hlive _
  obtain ⟨resp, store', s', hrun, _, hphase, hfq, hres, hlook, _, hphase', _⟩ :=
    diagnose_v2_continue_completes store req now g s hs hlive
  exact ⟨resp, store', hrun, hphase, hfq, hres, s', hlook, hphase'⟩

/-- Witness for C10 at a freshly started session (followup count 0). -/
theorem C10_continue_first_submission_completes_witness :
    ∃ resp store', diagnose_v2_continue
        [("s1", ⟨"s1", 0, 0, 3600,
          [("phase", Val.vNat 1),
           ("initial_answers", Val.vInit
             ⟨some "p", some "obedient", none, none, none, none, none, none⟩),
           ("followup_answers", Val.vList []),
           ("followup_count", Val.vNat 0),
           ("detected_language", Val.vStr "en")]⟩)]
        ⟨"s1", [("fq1", "detailed")]⟩ 10 none = Except.ok (resp, store') ∧
      resp.phase = "complete" ∧
      resp.followup_questions = none ∧
      resp.result.isSome = true ∧
      ∃ s', lookupA store' "s1" = some s' ∧
        lookupA s'.data "phase" = some (Val.vStr "complete") :=
  C10_continue_first_submission_completes
    [("s1", ⟨"s1", 0, 0, 3600,
      [("phase", Val.vNat 1),
       ("initial_answers", Val.vInit
         ⟨some "p", some "obedient", none, none, none, none, none, none⟩),
       ("followup_answers", Val.vList []),
       ("followup_count", Val.vNat 0),
       ("detected_language", Val.vStr "en")]⟩)]
    ⟨"s1", [("fq1", "detailed")]⟩ 10 none
    ⟨"s1", 0, 0, 3600,
      [("phase", Val.vNat 1),
       ("initial_answers", Val.vInit
         ⟨some "p", some "obedient", none, none, none, none, none, none⟩),
       ("followup_answers", Val.vList []),
       ("followup_count", Val.vNat 0),
       ("detected_language", Val.vStr "en")]⟩
    (by decide) (by decide) (by decide)

/-- C3: after exactly two follow-up submissions to a session that stays
live, whatever the submitted answers (including empty lists) and whatever
each round's generation outcome, the controller has transitioned the
session to phase complete and the second response carries a final result
and no further follow-up questions. -/
theorem C3_round_cap_complete_after_two :
    ∀ (store : List (String × SessionData)) (sid : String)
      (ans₁ ans₂ : List (String × String)) (now₁ now₂ : Nat)
      (g₁ g₂ : Option FinalOutput) (s : SessionData),
      lookupA store sid = some s →
      now₁ ≤ s.expires_at → now₂ ≤ s.expires_at →
      followup_keys_well_typed s.data = true →
      ∃ resp₁ store₁,
        diagnose_v2_continue store ⟨sid, ans₁⟩ now₁ g₁ =
          Except.ok (resp₁, store₁) ∧
        ∃ resp₂ store₂,
          diagnose_v2_continue store₁ ⟨sid, ans₂⟩ now₂ g₂ =
            Except.ok (resp₂, store₂) ∧
          resp₂.phase = "complete" ∧
          resp₂.followup_questions = none ∧
          resp₂.result.isSome = true ∧
          ∃ s₂, lookupA store₂ sid = some s₂ ∧
            lookupA s₂.data "phase" = some (Val.vStr "complete") := by
  intro store sid ans₁ ans₂ now₁ now₂ g₁ g₂ s hs hlive₁ hlive₂ _
  obtain ⟨r₁, st₁, s₁, hrun₁, _, _, _, _, hlook₁, hexp₁, _, _, _, _, _⟩ :=
    diagnose_v2_continue_completes store ⟨sid, ans₁⟩ now₁ g₁ s hs hlive₁
  obtain ⟨r₂, st₂, s₂, hrun₂, _, hphase₂, hfq₂, hres₂, hlook₂, _, hphase₂', _, _, _, _⟩ :=
    diagnose_v2_continue_completes st₁ ⟨sid, ans₂⟩ now₂ g₂ s₁ hlook₁
      (by rw [hexp₁]; exact hlive₂)
  exact ⟨r₁, st₁, hrun₁, r₂, st₂, hrun₂, hphase₂, hfq₂, hres₂, s₂, hlook₂, hphase₂'⟩

/-- Witness for C3: two concrete submissions, the second with an empty
answer list, against a freshly started session. -/
theorem C3_round_cap_complete_after_two_witness :
    ∃ resp₁ store₁,
      diagnose_v2_continue
          [("s1", ⟨"s1", 0, 0, 3600,
            [("phase", Val.vNat 1),
             ("initial_answers", Val.vInit
               ⟨some "p", some "collaborative", none, none, none, none, none, none⟩),
             ("followup_answers", Val.vList []),
             ("followup_count", Val.vNat 0),
             ("detected_language", Val.vStr "en")]⟩)]
          ⟨"s1", [("fq1", "brief")]⟩ 10 none = Except.ok (resp₁, store₁) ∧
      ∃ resp₂ store₂,
        diagnose_v2_continue store₁ ⟨"s1", []⟩ 20 none =
          Except.ok (resp₂, store₂) ∧
        resp₂.phase = "complete" ∧
        resp₂.followup_questions = none ∧
        resp₂.result.isSome = true ∧
        ∃ s₂, lookupA store₂ "s1" = some s₂ ∧
          lookupA s₂.data "phase" = some (Val.vStr "complete") :=
  C3_round_cap_complete_after_two
    [("s1", ⟨"s1", 0, 0, 3600,
      [("phase", Val.vNat 1),
       ("initial_answers", Val.vInit
         ⟨some "p", some "collaborative", none, none, none, none, none, none⟩),
       ("followup_answers", Val.vList []),
       ("followup_count", Val.vNat 0),
       ("detected_language", Val.vStr "en")]⟩)]
    "s1" [("fq1", "brief")] [] 10 20 none none
    ⟨"s1", 0, 0, 3600,
      [("phase", Val.vNat 1),
       ("initial_answers", Val.vInit
         ⟨some "p", some "collaborative", none, none, none, none, none, none⟩),
       ("followup_answers", Val.vList []),
       ("followup_count", Val.vNat 0),
       ("detected_language", Val.vStr "en")]⟩
    (by decide) (by decide) (by decide) (by decide)

end SPD
